import Mathlib

/-!
A shallow embedding of `custom_components/waterkotte_heatpump/pywaterkotte_ha/ecotouch.py`
(the `EcotouchBridge` class: chunked register read/write transport, line-oriented
response parsing, cookie-based session handling) together with theorems settling
the specification claims about it.

HTTP is modelled by an oracle `World : Nat → HttpOutcome` giving the outcome of
the k-th HTTP call the client makes; the interpreter threads a state `St`
recording the bridge object, the number of calls made so far and the log of
calls.  The unbounded recursion of `_read_tags` (through its chunking `while`
loop and through re-login) and of `_write_tags` (through re-login) is modelled
with explicit fuel; an outcome of `Outcome.diverge` for every amount of fuel
stands for non-termination.  Response bodies are modelled at line granularity
(the list of lines of the HTTP body); the source's regular expressions, whose
blocks always span whole lines, are transcribed as line matchers.
-/

namespace Waterkotte

/-- Outcome of one completed HTTP exchange, as seen by the client: the HTTP
status code, the response body split at newlines, and an opaque cookie
delivered with the response (`response.cookies` in the source). -/
structure HttpExchange where
  status : Nat := 200
  body : List String := []
  cookie : Nat := 0
deriving DecidableEq

/-- Either a completed HTTP exchange or a transport-level error (an exception
raised by the HTTP library before a response body is obtained). -/
inductive HttpOutcome where
  | ok (e : HttpExchange)
  | netErr
deriving DecidableEq

/-- The environment: the outcome of the k-th HTTP call made by the client. -/
abbrev World := Nat → HttpOutcome

/-- The HTTP calls the bridge can make (`/cgi/readTags`, `/cgi/writeTags`,
`/cgi/login`, `/cgi/logout`), recorded with the request data relevant to the
claims (count and order of calls, tags and values sent). -/
inductive Call where
  | readTags (tags : List String)
  | writeTags (tags : List String) (vals : List String)
  | loginCall (username password : String)
  | logoutCall
deriving DecidableEq

/-- Python exceptions that the source can raise (or trigger in the runtime):
the three exception classes declared in `ecotouch.py`, the
`InvalidValueException` imported from the package root, and the built-in
exceptions reachable at specific source lines. -/
inductive PyErr where
  | invalidResponse
  | statusError (msg : String)
  | tooManyUsers (msg : String)
  | assertionError
  | typeError
  | keyError
  | indexError
  | invalidValue (msg : String)
  | valueError (msg : String)
  | netError
deriving DecidableEq

/-- `except StatusException` catches `StatusException` and its subclass
`TooManyUsersException`, and nothing else. -/
def PyErr.isStatusException : PyErr → Bool
  | .statusError _ => true
  | .tooManyUsers _ => true
  | _ => false

/-- Result of running one of the source's coroutines: normal return, a raised
exception, or fuel exhaustion (standing for non-termination). -/
inductive Outcome (α : Type) where
  | ok (a : α)
  | exn (e : PyErr)
  | diverge
deriving DecidableEq

/-- Association list standing for a Python `dict`: keys keep their first
insertion position, assignment to an existing key updates the value in
place. -/
abbrev PyDict (κ α : Type) := List (κ × α)

/-- Python `d[k] = v`. -/
def dinsert [DecidableEq κ] {α : Type} (k : κ) (v : α) : PyDict κ α → PyDict κ α
  | [] => [(k, v)]
  | (k0, v0) :: t => if k0 = k then (k, v) :: t else (k0, v0) :: dinsert k v t

/-- Python `d[k]` / `k in d`, as an optional lookup. -/
def dget? [DecidableEq κ] {α : Type} (k : κ) : PyDict κ α → Option α
  | [] => none
  | (k0, v0) :: t => if k0 = k then some v0 else dget? k t

/-- Python `str.startswith`. -/
def pyStartsWith (p s : String) : Bool := p.toList.isPrefixOf s.toList

/-- One character of the `[A-Z_]` character class. -/
def isStatusChar (c : Char) : Bool := c.isUpper || c = '_'

/-- `response.startswith(sentinel)` for a body modelled as its list of lines
(the sentinels contain no newline, so only the first line matters). -/
def respStartsWith (sentinel : String) (body : List String) : Bool :=
  match body with
  | [] => false
  | l :: _ => pyStartsWith sentinel l

/-- First line of the regex of the response parser,
`#<tag>\t(?P<status>[A-Z_]+)` followed in the pattern by a newline: the line
must read `#<tag>\t<STATUS>` with a nonempty all-`[A-Z_]` status. -/
def matchStatusLine (tag line : String) : Option String :=
  let pre := '#' :: tag.toList ++ ['\t']
  let cs := line.toList
  if pre.isPrefixOf cs then
    let rest := cs.drop pre.length
    if !rest.isEmpty && rest.all isStatusChar then some (String.mk rest) else none
  else none

/-- Continuation of the same regex on the following line,
`\d+\t(?P<value>\-?\d+)`: anchored at the line start, the rest of the line
after the captured value unconstrained; returns the captured (optionally
signed) value. -/
def matchValueLine (line : String) : Option String :=
  let cs := line.toList
  let ds := cs.takeWhile Char.isDigit
  if ds.isEmpty then none
  else
    match cs.drop ds.length with
    | '\t' :: r2 =>
      match r2 with
      | '-' :: r3 =>
        let vs := r3.takeWhile Char.isDigit
        if vs.isEmpty then none else some (String.mk ('-' :: vs))
      | _ =>
        let vs := r2.takeWhile Char.isDigit
        if vs.isEmpty then none else some (String.mk vs)
    | _ => none

/-- `re.search` of the two-line block for `tag` over the response lines: the
first pair of consecutive lines whose first line is `#<tag>\t<STATUS>` and
whose second line carries a value. -/
def findBlock (tag : String) : List String → Option (String × String)
  | l1 :: l2 :: rest =>
    (match matchStatusLine tag l1 with
      | some st =>
        match matchValueLine l2 with
        | some v => some (st, v)
        | none => findBlock tag (l2 :: rest)
      | none => findBlock tag (l2 :: rest))
  | _ => none

/-- The fallback regex `#<tag>\tE_INACTIVETAG` over the response lines (no
trailing anchor, so a prefix match on a line suffices). -/
def hasInactiveLine (tag : String) (body : List String) : Bool :=
  body.any (fun l => ('#' :: tag.toList ++ '\t' :: "E_INACTIVETAG".toList).isPrefixOf l.toList)

/-- `get_status_response`: the first line starting with `#` followed by a
nonempty `[A-Z_]+` run; `none` models raising `InvalidResponseException`. -/
def get_status_response (body : List String) : Option String :=
  body.findSome? (fun l =>
    match l.toList with
    | '#' :: rest =>
      let run := rest.takeWhile isStatusChar
      if run.isEmpty then none else some (String.mk run)
    | _ => none)

/-- Per-tag result of the parsing loop shared by `_read_tags` and
`_write_tags`: a found block gives its (value, status); otherwise a lone
inactive line gives `(None, "E_INACTIVE")`; otherwise `(None, "E_NOTFOUND")`. -/
def tagEntry (tag : String) (body : List String) : Option String × String :=
  match findBlock tag body with
  | some (st, v) => (some v, st)
  | none =>
    if hasInactiveLine tag body then (none, "E_INACTIVE") else (none, "E_NOTFOUND")

/-- The `for tag in tags:` parsing loop of `_read_tags` / `_write_tags`,
updating the `results` and `results_status` dicts tag by tag, in order. -/
def parseTagsInto (body : List String) :
    List String → PyDict String (Option String) → PyDict String String →
    PyDict String (Option String) × PyDict String String
  | [], r, st => (r, st)
  | tag :: rest, r, st =>
    parseTagsInto body rest (dinsert tag (tagEntry tag body).1 r)
      (dinsert tag (tagEntry tag body).2 st)

/-- A decoded domain value: Python float, bool, str, or the list of booleans
produced by bitmask decoding.  One-decimal fixed-point floats (always of the
form `int/10` here) are represented exactly as rationals. -/
inductive DomainVal where
  | num (q : ℚ)
  | bool (b : Bool)
  | str (s : String)
  | bools (l : List Bool)
deriving DecidableEq

/-- Modelled from the spec: the codec variants of the `TagData` class from the
`pywaterkotte_ha` package root, which is not under `src/` (only its caller
`ecotouch.py` is).  Spec §4.1 lists default numeric (÷10), boolean enable flag
(`0`/`1`), bitmask-to-labels; the remaining variants (date/time composites,
versions, …) are exercised by no claim and are omitted. -/
inductive Codec where
  | plain
  | state
  | bitsOf
deriving DecidableEq

/-- Modelled from the spec (§3, Property Descriptor): the `TagData` descriptor
record from the `pywaterkotte_ha` package root (not under `src/`); `ename` is
the `EcotouchTag` enum member name (Python hashes the enum members by name). -/
structure TagData where
  ename : String
  tags : List String
  unit : String := ""
  writeable : Bool := false
  codec : Codec := .plain
  bit : Option Nat := none
  bits : List Nat := []
  translate : Bool := false
deriving DecidableEq

/-- Numeric value of a list of decimal digit characters. -/
def digitsToNat (ds : List Char) : Nat := ds.foldl (fun n c => 10 * n + (c.toNat - '0'.toNat)) 0

/-- Python `int(s)` on the strings this client feeds it: an optional minus sign
followed by decimal digits; anything else raises `ValueError` (`none`). -/
def strToInt? (s : String) : Option Int :=
  match s.toList with
  | '-' :: ds =>
    if !ds.isEmpty && ds.all Char.isDigit then some (-(digitsToNat ds : Int)) else none
  | ds =>
    if !ds.isEmpty && ds.all Char.isDigit then some ((digitsToNat ds : Int)) else none

/-- Modelled from the spec (§4.1): the default numeric decode — parse the first
raw value as an integer and divide by 10; a missing (`None`) or malformed raw
value is a decode error. -/
def decodePlain (vals : List (Option String)) : Except String DomainVal :=
  match vals with
  | some v :: _ =>
    (match strToInt? v with
      | some n => .ok (.num (mkRat n 10))
      | none => .error "invalid literal for int")
  | none :: _ => .error "int of None"
  | [] => .error "index out of range"

/-- Modelled from the spec (§4.1): the boolean enable-flag decode — raw `"0"`
and `"1"` map to the booleans, any other raw value is a decode error. -/
def decodeState (vals : List (Option String)) : Except String DomainVal :=
  match vals with
  | some "0" :: _ => .ok (.bool false)
  | some "1" :: _ => .ok (.bool true)
  | _ => .error "unknown state"

/-- Modelled from the spec (§4.1): bitmask decode — the listed bits of the
first raw value, in order. -/
def decodeBits (bits : List Nat) (vals : List (Option String)) : Except String DomainVal :=
  match vals with
  | some v :: _ =>
    (match strToInt? v with
      | some n => .ok (.bools (bits.map (fun i => n.toNat.testBit i)))
      | none => .error "invalid literal for int")
  | _ => .error "bits of None"

/-- `a_eco_tag.decode_function(a_eco_tag, vals)`: dispatch on the descriptor's
codec. -/
def TagData.decode (td : TagData) (vals : List (Option String)) : Except String DomainVal :=
  match td.codec with
  | .plain => decodePlain vals
  | .state => decodeState vals
  | .bitsOf => decodeBits td.bits vals

/-- `round(value * 10)` of the default numeric encode: rounding of `10·q` to
the nearest integer, `⌊10q + 1/2⌋`, computed by floor division on numerator
and denominator.  (Python's `round` breaks ties to even; every value encoded
by the claims is integral after the `·10`, so ties never arise.) -/
def ratRound10 (q : ℚ) : Int := Int.fdiv (20 * q.num + (q.den : Int)) (2 * (q.den : Int))

/-- Modelled from the spec (§4.1): `a_eco_tag.encode_function(a_eco_tag, value,
to_write)` — default numeric encode multiplies by 10, rounds to the nearest
integer and writes the decimal string into the shared accumulator under the
descriptor's first register code; the state encode writes `"1"`/`"0"`. -/
def TagData.encode (td : TagData) (v : DomainVal) (to_write : PyDict String String) :
    Except String (PyDict String String) :=
  match td.codec with
  | .plain =>
    (match v, td.tags with
      | .num q, t :: _ => .ok (dinsert t (toString (ratRound10 q)) to_write)
      | _, _ => .error "cannot encode")
  | .state =>
    (match v, td.tags with
      | .bool b, t :: _ => .ok (dinsert t (if b then "1" else "0") to_write)
      | _, _ => .error "cannot encode")
  | .bitsOf => .error "decode only"

/-- The comparison `str(val) != str(value)` of `write_values`.  On this value
domain the Python string renderings of two values of the same kind coincide
exactly when the values are equal (the floats compared are always of the form
`int/10`), so the comparison is modelled as structural equality. -/
def pyStrEq (a b : DomainVal) : Bool := a == b

/-- The `EcotouchBridge` object state: host, the credentials last stored by
`login`, the chunk size `tagsPerRequest`, the selected translation table and
the auth cookie (`None` before the first successful login). -/
structure EcotouchBridge where
  hostname : String
  username : String
  password : String
  tagsPerRequest : Int
  lang_map : PyDict String (List String)
  auth_cookies : Option Nat
deriving DecidableEq

/-- `EcotouchBridge.__init__`.  The `TRANSLATIONS` table lives in the `const`
module, which is not under `src/`; modelled from the spec (§6: a language-keyed
table of per-register label lists with fallback language `en`) as an explicit
`translations` argument.  The chunk size is clamped from above only:
`min(tagsPerRequest, 75)`. -/
def mkBridge (translations : PyDict String (PyDict String (List String)))
    (host : String) (tagsPerRequest : Int) (lang : String) : EcotouchBridge :=
  { hostname := host
    username := "waterkotte"
    password := "waterkotte"
    tagsPerRequest := min tagsPerRequest 75
    lang_map :=
      match dget? lang translations with
      | some m => m
      | none => (dget? "en" translations).getD []
    auth_cookies := none }

/-- The interpreter state: the bridge object plus the index of the next HTTP
call and the log of calls made so far. -/
structure St where
  bridge : EcotouchBridge
  clock : Nat
  calls : List Call
deriving DecidableEq

/-- Perform one HTTP call: consume the world's outcome for the current clock
tick and record the call. -/
def httpGet (w : World) (s : St) (c : Call) : HttpOutcome × St :=
  (w s.clock, { s with clock := s.clock + 1, calls := s.calls ++ [c] })

/-- `EcotouchBridge.login`: store the credentials on the bridge, then perform
the login call; `assert response.status == 200`; parse the status line; on a
non-`S_OK` status raise `TooManyUsersException` or `StatusException`; on
`S_OK` store the response cookie. -/
def loginF (w : World) (s : St) (username password : String) : Outcome Unit × St :=
  let s := { s with bridge := { s.bridge with username := username, password := password } }
  match httpGet w s (.loginCall username password) with
  | (.netErr, s1) => (.exn .netError, s1)
  | (.ok e, s1) =>
    if e.status ≠ 200 then (.exn .assertionError, s1)
    else
      match get_status_response e.body with
      | none => (.exn .invalidResponse, s1)
      | some parsed =>
        if parsed = "S_OK" then
          (.ok (), { s1 with bridge := { s1.bridge with auth_cookies := some e.cookie } })
        else if pyStartsWith "E_TOO_MANY_USERS" parsed then
          (.exn (.tooManyUsers "TOO_MANY_USERS"), s1)
        else (.exn (.statusError parsed), s1)

/-- `EcotouchBridge.logout`: perform the logout call, then clear the cookie.
The clearing statement sits after the awaited call, so a transport error
propagates with the cookie untouched. -/
def logoutF (w : World) (s : St) : Outcome Unit × St :=
  match httpGet w s .logoutCall with
  | (.netErr, s1) => (.exn .netError, s1)
  | (.ok _, s1) => (.ok (), { s1 with bridge := { s1.bridge with auth_cookies := none } })

/-- Python slice `l[:c]` for an `int` bound `c` (negative bounds count from the
end, clamped at the list boundaries). -/
def pyTake {α : Type} (c : Int) (l : List α) : List α :=
  if 0 ≤ c then l.take c.toNat else l.take (l.length - (-c).toNat)

/-- Python slice `l[c:]` for an `int` bound `c`. -/
def pyDrop {α : Type} (c : Int) (l : List α) : List α :=
  if 0 ≤ c then l.drop c.toNat else l.drop (l.length - (-c).toNat)

/-- `list(set(xs))`.  CPython's set iteration order is unspecified; it is
modelled deterministically as deduplication keeping first occurrences (no
theorem below depends on the particular order). -/
def pySet (l : List String) : List String :=
  l.foldl (fun acc x => if x ∈ acc then acc else acc ++ [x]) []

/-- The three shapes `_read_tags` can return: the `(results, results_status)`
pair, the `(None, None)` pair of the failed-re-login path, and the bare `None`
of the too-many-users path. -/
inductive ReadRet where
  | pair (results : PyDict String (Option String)) (results_status : PyDict String String)
  | noneNone
  | onlyNone
deriving DecidableEq

/-- The two shapes `_write_tags` can return: the `(results, results_status)`
pair, or the bare `None` shared by the failed-re-login path and the
too-many-users path. -/
inductive WriteRet where
  | pair (results : PyDict String (Option String)) (results_status : PyDict String String)
  | wnone
deriving DecidableEq

/-- The body of `EcotouchBridge._read_tags`, with the accumulator pair carried
as one `Option` (the two parameters are always both `None` or both dicts: they
are defaulted together at entry and unpacked together from recursive calls).
The `while len(tags) > self.tagsPerRequest:` loop and both recursive
`_read_tags` calls (per-chunk and re-login retry) appear as fuel-decreasing
self-calls; recursive entry re-defaults a `None` accumulator to fresh dicts,
exactly as the source's default-argument handling does. -/
def readLoop (w : World) :
    Nat → St → List String →
    Option (PyDict String (Option String) × PyDict String String) →
    Outcome ReadRet × St
  | 0, s, _, _ => (.diverge, s)
  | fuel + 1, s, tags, acc =>
    if (tags.length : Int) > s.bridge.tagsPerRequest then
      match readLoop w fuel s (pyTake s.bridge.tagsPerRequest tags) (some (acc.getD ([], []))) with
      | (.ok (.pair r st), s1) =>
        readLoop w fuel s1 (pyDrop s.bridge.tagsPerRequest tags) (some (r, st))
      | (.ok .noneNone, s1) =>
        readLoop w fuel s1 (pyDrop s.bridge.tagsPerRequest tags) none
      | (.ok .onlyNone, s1) => (.exn .typeError, s1)
      | (.exn e, s1) => (.exn e, s1)
      | (.diverge, s1) => (.diverge, s1)
    else
      match httpGet w s (.readTags tags) with
      | (.netErr, s1) => (.exn .netError, s1)
      | (.ok e, s1) =>
        if respStartsWith "#E_NEED_LOGIN" e.body then
          match loginF w s1 s1.bridge.username s1.bridge.password with
          | (.ok _, s2) =>
            (match readLoop w fuel s2 tags (some (acc.getD ([], []))) with
              | (.exn e2, s3) =>
                if e2.isStatusException then (.ok .noneNone, s3) else (.exn e2, s3)
              | other => other)
          | (.exn e2, s2) =>
            if e2.isStatusException then (.ok .noneNone, s2) else (.exn e2, s2)
          | (.diverge, s2) => (.diverge, s2)
        else if respStartsWith "#E_TOO_MANY_USERS" e.body then
          (.ok .onlyNone, s1)
        else
          match acc with
          | some (r, st) =>
            let p := parseTagsInto e.body tags r st
            (.ok (.pair p.1 p.2), s1)
          | none =>
            if tags.isEmpty then (.ok .noneNone, s1) else (.exn .typeError, s1)

/-- `EcotouchBridge._read_tags(tags, results=None, results_status=None)`: the
entry point defaults `None` accumulators to fresh dicts. -/
def readTagsF (w : World) (fuel : Nat) (s : St) (tags : List String)
    (results : Option (PyDict String (Option String)))
    (results_status : Option (PyDict String String)) : Outcome ReadRet × St :=
  readLoop w fuel s tags (some (results.getD [], results_status.getD []))

/-- `EcotouchBridge._write_tags(tags, value)`: one `writeTags` call (no
chunking), the same needs-login re-login-and-retry recursion as the read path,
bare `None` on a caught `StatusException` and on the too-many-users sentinel,
otherwise the parsed `(results, results_status)` pair built from fresh dicts. -/
def writeTagsF (w : World) :
    Nat → St → List String → List String → Outcome WriteRet × St
  | 0, s, _, _ => (.diverge, s)
  | fuel + 1, s, tags, vals =>
    match httpGet w s (.writeTags tags vals) with
    | (.netErr, s1) => (.exn .netError, s1)
    | (.ok e, s1) =>
      if respStartsWith "#E_NEED_LOGIN" e.body then
        match loginF w s1 s1.bridge.username s1.bridge.password with
        | (.ok _, s2) =>
          (match writeTagsF w fuel s2 tags vals with
            | (.exn e2, s3) =>
              if e2.isStatusException then (.ok .wnone, s3) else (.exn e2, s3)
            | other => other)
        | (.exn e2, s2) =>
          if e2.isStatusException then (.ok .wnone, s2) else (.exn e2, s2)
        | (.diverge, s2) => (.diverge, s2)
      else if respStartsWith "#E_TOO_MANY_USERS" e.body then
        (.ok .wnone, s1)
      else
        let p := parseTagsInto e.body tags [] []
        (.ok (.pair p.1 p.2), s1)

/-- `[e_values[a_tag] for a_tag in a_eco_tag.tags]`: the whole comprehension
fails with `KeyError` (`none`) if any key is absent. -/
def lookupAll {α : Type} (d : PyDict String α) : List String → Option (List α)
  | [] => some []
  | k :: t =>
    match dget? k d with
    | none => none
    | some v => (lookupAll d t).map (v :: ·)

/-- The label-joining loop of the translate branch: for each set bit, append
`", " + value_map[idx]`; an out-of-range index raises (`none`). -/
def buildLabelsAux (value_map : List String) : List Bool → Nat → Option String
  | [], _ => some ""
  | b :: rest, i =>
    if b then
      match value_map.get? i with
      | none => none
      | some lab =>
        (match buildLabelsAux value_map rest (i + 1) with
          | none => none
          | some tail => some (", " ++ lab ++ tail))
    else buildLabelsAux value_map rest (i + 1)

/-- The translate branch's final value: the joined labels with the leading
`", "` stripped (`final_value[2:]`). -/
def buildLabels (temp : List Bool) (value_map : List String) : Option String :=
  match buildLabelsAux value_map temp 0 with
  | none => none
  | some f => some (String.mk (f.toList.drop 2))

/-- One iteration of the `for a_eco_tag in tags:` loop of `read_values`.  The
whole body sits in a `try`/`except` that logs and continues, so every failure
path (missing key, empty tag list, decode error, translate error) leaves
`result` as it stood at the failure point: before the `result[a_eco_tag] = …`
assignment nothing is kept, after it the entry survives a translate failure. -/
def readValuesStep (lang_map : PyDict String (List String))
    (e_values : PyDict String (Option String)) (e_status : PyDict String String)
    (result : PyDict TagData (DomainVal × String)) (td : TagData) :
    PyDict TagData (DomainVal × String) :=
  match lookupAll e_values td.tags, lookupAll e_status td.tags with
  | some t_values, some t_states =>
    (match td.decode t_values, t_states.head? with
      | .ok v, some st0 =>
        let result1 := dinsert td (v, st0) result
        if td.translate then
          match td.tags.head? with
          | none => result1
          | some reg =>
            (match dget? reg lang_map with
              | none => result1
              | some value_map =>
                match v with
                | .bools temp =>
                  (match buildLabels temp value_map with
                    | some final => dinsert td (.str final, st0) result1
                    | none => result1)
                | _ => result1)
        else result1
      | _, _ => result)
  | _, _ => result

/-- `EcotouchBridge.read_values`: flatten the descriptors' registers to a
deduplicated list, `_read_tags` it, then regroup and decode per descriptor
with per-descriptor exception isolation.  A `(None, None)` transport result
skips the whole decoding block (empty result); a bare `None` raises
`TypeError` at the unpacking. -/
def read_values (w : World) (fuel : Nat) (s : St) (tags : List TagData) :
    Outcome (PyDict TagData (DomainVal × String)) × St :=
  let e_tags := pySet (tags.flatMap TagData.tags)
  match readTagsF w fuel s e_tags none none with
  | (.ok (.pair e_values e_status), s1) =>
    if e_values.length > 0 then
      (.ok (tags.foldl (readValuesStep s1.bridge.lang_map e_values e_status) []), s1)
    else (.ok [], s1)
  | (.ok .noneNone, s1) => (.ok [], s1)
  | (.ok .onlyNone, s1) => (.exn .typeError, s1)
  | (.exn e, s1) => (.exn e, s1)
  | (.diverge, s1) => (.diverge, s1)

/-- `EcotouchBridge.read_value`: singleton wrapper around `read_values`. -/
def read_value (w : World) (fuel : Nat) (s : St) (tag : TagData) :
    Outcome (Option (DomainVal × String)) × St :=
  match read_values w fuel s [tag] with
  | (.ok res, s1) => (.ok (dget? tag res), s1)
  | (.exn e, s1) => (.exn e, s1)
  | (.diverge, s1) => (.diverge, s1)

/-- The `for a_eco_tag, value in kv_pairs:` loop of `write_values`, threading
the shared `to_write` accumulator and the `result` dict.  Per iteration:
writeability precondition, encode into the accumulator, `_write_tags`, skip
unless every echoed status is `S_OK`, re-decode the echoed raw values, and on
`str(val) != str(value)` only log — the `result` entry is made in the `else`
branch only. -/
def writeValuesGo (w : World) (fuel : Nat) :
    St → List (TagData × DomainVal) → PyDict String String →
    PyDict TagData (DomainVal × String) →
    Outcome (PyDict TagData (DomainVal × String)) × St
  | s, [], _, result => (.ok result, s)
  | s, (td, value) :: rest, to_write, result =>
    if td.writeable = false then
      (.exn (.invalidValue "tried to write to an readonly field"), s)
    else
      match td.encode value to_write with
      | .error m => (.exn (.valueError m), s)
      | .ok to_write2 =>
        match writeTagsF w fuel s (to_write2.map Prod.fst) (to_write2.map Prod.snd) with
        | (.ok (.pair e_values e_status), s1) =>
          if e_values.length > 0 then
            if e_status.all (fun p => p.2 == "S_OK") then
              match lookupAll e_values td.tags with
              | none => (.exn .keyError, s1)
              | some str_vals =>
                match td.decode str_vals with
                | .error m => (.exn (.valueError m), s1)
                | .ok val =>
                  if pyStrEq val value then
                    match td.tags.head? with
                    | none => (.exn .indexError, s1)
                    | some t0 =>
                      match dget? t0 e_status with
                      | none => (.exn .keyError, s1)
                      | some st0 =>
                        writeValuesGo w fuel s1 rest to_write2 (dinsert td (val, st0) result)
                  else writeValuesGo w fuel s1 rest to_write2 result
            else writeValuesGo w fuel s1 rest to_write2 result
          else writeValuesGo w fuel s1 rest to_write2 result
        | (.ok .wnone, s1) => (.exn .typeError, s1)
        | (.exn e, s1) => (.exn e, s1)
        | (.diverge, s1) => (.diverge, s1)

/-- `EcotouchBridge.write_values`. -/
def write_values (w : World) (fuel : Nat) (s : St) (kv_pairs : List (TagData × DomainVal)) :
    Outcome (PyDict TagData (DomainVal × String)) × St :=
  writeValuesGo w fuel s kv_pairs [] []

/-- `EcotouchBridge.write_value`: singleton wrapper around `write_values`. -/
def write_value (w : World) (fuel : Nat) (s : St) (tag : TagData) (value : DomainVal) :
    Outcome (PyDict TagData (DomainVal × String)) × St :=
  write_values w fuel s [(tag, value)]

/-- `TEMPERATURE_OUTSIDE = TagData(["A1"], "°C")` (read-only, default codec). -/
def TEMPERATURE_OUTSIDE : TagData := { ename := "TEMPERATURE_OUTSIDE", tags := ["A1"], unit := "°C" }

/-- `TEMPERATURE_OUTSIDE_1H = TagData(["A2"], "°C")`. -/
def TEMPERATURE_OUTSIDE_1H : TagData := { ename := "TEMPERATURE_OUTSIDE_1H", tags := ["A2"], unit := "°C" }

/-- `TEMPERATURE_OUTSIDE_24H = TagData(["A3"], "°C")`. -/
def TEMPERATURE_OUTSIDE_24H : TagData := { ename := "TEMPERATURE_OUTSIDE_24H", tags := ["A3"], unit := "°C" }

/-- `TEMPERATURE_SOURCE_ENTRY = TagData(["A4"], "°C")`. -/
def TEMPERATURE_SOURCE_ENTRY : TagData := { ename := "TEMPERATURE_SOURCE_ENTRY", tags := ["A4"], unit := "°C" }

/-- `TEMPERATURE_FLOW = TagData(["A12"], "°C")` (read-only). -/
def TEMPERATURE_FLOW : TagData := { ename := "TEMPERATURE_FLOW", tags := ["A12"], unit := "°C" }

/-- `TEMPERATURE_HEATING_SETPOINT = TagData(["A32"], "°C", writeable=True)`. -/
def TEMPERATURE_HEATING_SETPOINT : TagData :=
  { ename := "TEMPERATURE_HEATING_SETPOINT", tags := ["A32"], unit := "°C", writeable := true }

/-- `ENABLE_HEATING = TagData(["I30"], decode/encode state functions,
writeable=True)`. -/
def ENABLE_HEATING : TagData :=
  { ename := "ENABLE_HEATING", tags := ["I30"], writeable := true, codec := .state }

/-- The bridge as built by `EcotouchBridge(host)` with the default chunk size
10 and an empty translation table. -/
def bridge0 : EcotouchBridge := mkBridge [] "host" 10 "en"

/-- Fresh interpreter state over `bridge0`. -/
def st0 : St := { bridge := bridge0, clock := 0, calls := [] }

/-- A state holding an authenticated cookie. -/
def sCookie : St := { bridge := { bridge0 with auth_cookies := some 5 }, clock := 0, calls := [] }

/-- A world whose every HTTP call fails at the transport level. -/
def wDown : World := fun _ => .netErr

/-- A world answering every call with a block-free, sentinel-free body. -/
def wNop : World := fun _ => .ok { body := ["#NOTHING"] }

/-- A world answering every call with an `S_OK` login-style body. -/
def wLoginOk : World := fun _ => .ok { body := ["#S_OK", "IDALToken=x"], cookie := 7 }

/-- A world driving the re-login loop twice: needs-login, successful login,
needs-login again, successful login again, then a normal response. -/
def wRelogin : World := fun k =>
  if k = 0 then .ok { body := ["#E_NEED_LOGIN"] }
  else if k = 1 then .ok { body := ["#S_OK"], cookie := 7 }
  else if k = 2 then .ok { body := ["#E_NEED_LOGIN"] }
  else if k = 3 then .ok { body := ["#S_OK"], cookie := 8 }
  else .ok { body := ["#A1\tS_OK", "1\t215"] }

/-- A world whose first chunk response is needs-login and whose login attempt
is rejected with a non-`S_OK` status. -/
def wLoginFail : World := fun k =>
  if k = 0 then .ok { body := ["#E_NEED_LOGIN"] }
  else .ok { body := ["#E_USER"] }

/-- A world answering every call with the too-many-users sentinel. -/
def wTooMany : World := fun _ => .ok { body := ["#E_TOO_MANY_USERS"] }

/-- A world echoing register `A32` back as raw `216` (i.e. `21.6`). -/
def wEcho216 : World := fun _ => .ok { body := ["#A32\tS_OK", "1\t216"] }

/-- A world echoing register `A32` back as raw `215` (i.e. `21.5`). -/
def wEcho215 : World := fun _ => .ok { body := ["#A32\tS_OK", "1\t215"] }

/-- A read response carrying blocks for `A1` and `A3` but no block (and no
inactive line) for `A2`. -/
def wMissingA2 : World := fun _ => .ok { body := ["#A1\tS_OK", "1\t215", "#A3\tS_OK", "1\t30"] }

/-- A read response in which `I30` carries the raw value `5`, which the state
codec cannot decode, while `A1` and `A4` decode fine. -/
def wBadState : World :=
  fun _ => .ok { body := ["#A1\tS_OK", "1\t215", "#I30\tS_OK", "1\t5", "#A4\tS_OK", "1\t-30"] }

/-- A device that never raises a transport error and never answers with the
needs-login or too-many-users sentinel (the environment under which the
chunk-splitting recursion runs in isolation). -/
def BenignWorld (w : World) : Prop :=
  ∀ k, ∃ e, w k = .ok e ∧ respStartsWith "#E_NEED_LOGIN" e.body = false ∧
    respStartsWith "#E_TOO_MANY_USERS" e.body = false

/-- Termination of a `_read_tags` call: some amount of fuel suffices. -/
def ReadTerminates (w : World) (s : St) (tags : List String) : Prop :=
  ∃ fuel, (readTagsF w fuel s tags none none).1 ≠ .diverge

/-- `⌈n / c⌉` on naturals. -/
def ceilDiv (n c : Nat) : Nat := (n + c - 1) / c

/-- Recognizer for login calls in the call log. -/
def isLoginCall : Call → Bool
  | .loginCall _ _ => true
  | _ => false

/-- Recognizer for readTags calls in the call log. -/
def isReadTagsCall : Call → Bool
  | .readTags _ => true
  | _ => false

/-- A state over a bridge built with chunk size 2. -/
def st2 : St := { bridge := mkBridge [] "host" 2 "en", clock := 0, calls := [] }

/-- A state over a bridge built with chunk size 0 (the constructor accepts it
unchanged). -/
def sZero : St := { bridge := mkBridge [] "host" 0 "en", clock := 0, calls := [] }

/-- Looking up the key just written by `dinsert` yields the written value. -/
theorem dget_dinsert_self {κ α : Type} [DecidableEq κ] (k : κ) (v : α) (d : PyDict κ α) :
    dget? k (dinsert k v d) = some v := by
  induction d with
  | nil => simp [dinsert, dget?]
  | cons hd t ih =>
    by_cases h : hd.1 = k
    · simp [dinsert, dget?, h]
    · simp [dinsert, dget?, h, ih]

/-- `dinsert` does not disturb lookups of other keys. -/
theorem dget_dinsert_ne {κ α : Type} [DecidableEq κ] {k k2 : κ} (v : α) (d : PyDict κ α)
    (h : k2 ≠ k) : dget? k2 (dinsert k v d) = dget? k2 d := by
  have hne : ¬ k = k2 := fun hh => h hh.symm
  induction d with
  | nil => simp [dinsert, dget?, hne]
  | cons hd t ih =>
    by_cases hk : hd.1 = k
    · simp [dinsert, dget?, hk, hne]
    · simp [dinsert, dget?, hk, ih]

/-- The parsing loop leaves entries of unrequested tags untouched. -/
theorem parse_stable (body : List String) (tags : List String) (tag : String)
    (htag : tag ∉ tags) :
    ∀ r st, dget? tag (parseTagsInto body tags r st).1 = dget? tag r ∧
      dget? tag (parseTagsInto body tags r st).2 = dget? tag st := by
  induction tags with
  | nil => intro r st; simp [parseTagsInto]
  | cons hd rest ih =>
    intro r st
    have hne : tag ≠ hd := fun h => htag (h ▸ List.mem_cons_self hd rest)
    have hrest : tag ∉ rest := fun h => htag (List.mem_cons_of_mem hd h)
    have := ih hrest (dinsert hd (tagEntry hd body).1 r) (dinsert hd (tagEntry hd body).2 st)
    simpa [parseTagsInto, dget_dinsert_ne _ _ hne] using this

/-- Every requested tag ends up in both parse dicts with exactly its
`tagEntry` classification. -/
theorem parse_get (body : List String) (tags : List String) (tag : String)
    (htag : tag ∈ tags) :
    ∀ r st, dget? tag (parseTagsInto body tags r st).1 = some (tagEntry tag body).1 ∧
      dget? tag (parseTagsInto body tags r st).2 = some (tagEntry tag body).2 := by
  induction tags with
  | nil => cases htag
  | cons hd rest ih =>
    intro r st
    by_cases hmem : tag ∈ rest
    · simpa [parseTagsInto] using ih hmem (dinsert hd (tagEntry hd body).1 r)
        (dinsert hd (tagEntry hd body).2 st)
    · have heq : tag = hd := by
        rcases List.mem_cons.mp htag with h | h
        · exact h
        · exact absurd h hmem
      subst heq
      have := parse_stable body rest tag hmem (dinsert tag (tagEntry tag body).1 r)
        (dinsert tag (tagEntry tag body).2 st)
      simp [parseTagsInto, this.1, this.2, dget_dinsert_self]

/-- A key present in a dict stays present across any `dinsert`. -/
theorem present_after_dinsert {κ α : Type} [DecidableEq κ] {k : κ} (k2 : κ) (v : α)
    (d : PyDict κ α) (h : dget? k d ≠ none) : dget? k (dinsert k2 v d) ≠ none := by
  by_cases he : k = k2
  · subst he
    simp [dget_dinsert_self]
  · rw [dget_dinsert_ne v d he]
    exact h

/-- One `read_values` loop iteration never removes an existing result entry. -/
theorem step_preserves_presence (L : PyDict String (List String))
    (ev : PyDict String (Option String)) (est : PyDict String String)
    (result : PyDict TagData (DomainVal × String)) (td td2 : TagData)
    (h : dget? td result ≠ none) :
    dget? td (readValuesStep L ev est result td2) ≠ none := by
  unfold readValuesStep
  repeat' split
  all_goals first
    | exact h
    | exact present_after_dinsert _ _ _ h
    | exact present_after_dinsert _ _ _ (present_after_dinsert _ _ _ h)

/-- A `read_values` loop iteration whose lookups and decode succeed always
records an entry for its own descriptor. -/
theorem step_inserts_self (L : PyDict String (List String))
    (ev : PyDict String (Option String)) (est : PyDict String String)
    (result : PyDict TagData (DomainVal × String)) (td : TagData)
    (tv : List (Option String)) (ts : List String) (stat0 : String) (v : DomainVal)
    (hv : lookupAll ev td.tags = some tv) (hs : lookupAll est td.tags = some ts)
    (h0 : ts.head? = some stat0) (hd : td.decode tv = .ok v) :
    dget? td (readValuesStep L ev est result td) ≠ none := by
  simp only [readValuesStep, hv, hs, hd, h0]
  repeat' split
  all_goals simp [dget_dinsert_self]

/-- Result entries survive the rest of the `read_values` fold. -/
theorem fold_preserves_presence (L : PyDict String (List String))
    (ev : PyDict String (Option String)) (est : PyDict String String)
    (td : TagData) :
    ∀ (tds : List TagData) (result : PyDict TagData (DomainVal × String)),
      dget? td result ≠ none →
      dget? td (tds.foldl (readValuesStep L ev est) result) ≠ none := by
  intro tds
  induction tds with
  | nil => intro result h; simpa using h
  | cons hd rest ih =>
    intro result h
    exact ih _ (step_preserves_presence L ev est result td hd h)

/-- Failed lookup in a dict is exactly absence from its key list. -/
theorem dget_eq_none_iff {κ α : Type} [DecidableEq κ] (k : κ) (d : PyDict κ α) :
    dget? k d = none ↔ k ∉ d.map Prod.fst := by
  induction d with
  | nil => simp [dget?]
  | cons hd t ih =>
    by_cases h : hd.1 = k
    · simp [dget?, h]
    · rw [dget?, if_neg h, ih]
      simp only [List.map_cons, List.mem_cons, not_or]
      constructor
      · intro hk
        exact ⟨fun hh => h hh.symm, hk⟩
      · intro hk
        exact hk.2

/-- Inserting a fresh key appends it at the end (Python dict insertion
order). -/
theorem dinsert_fresh {κ α : Type} [DecidableEq κ] (k : κ) (v : α) (d : PyDict κ α)
    (h : dget? k d = none) : dinsert k v d = d ++ [(k, v)] := by
  induction d with
  | nil => simp [dinsert]
  | cons hd t ih =>
    rw [dget?] at h
    by_cases hk : hd.1 = k
    · simp [hk] at h
    · simp [dinsert, hk]
      exact ih (by simpa [hk] using h)

/-- Parsing a chunk of fresh, duplicate-free tags appends exactly those tags,
in order, to the key lists of both accumulator dicts. -/
theorem parse_keys (body : List String) :
    ∀ (tags : List String) (r : PyDict String (Option String)) (st : PyDict String String),
      tags.Nodup → (∀ t ∈ tags, t ∉ r.map Prod.fst) → (∀ t ∈ tags, t ∉ st.map Prod.fst) →
      (parseTagsInto body tags r st).1.map Prod.fst = r.map Prod.fst ++ tags ∧
      (parseTagsInto body tags r st).2.map Prod.fst = st.map Prod.fst ++ tags := by
  intro tags
  induction tags with
  | nil => intro r st _ _ _; simp [parseTagsInto]
  | cons hd rest ih =>
    intro r st hnd hfr hfst
    have hr0 : dget? hd r = none :=
      (dget_eq_none_iff hd r).mpr (hfr hd (List.mem_cons_self hd rest))
    have hst0 : dget? hd st = none :=
      (dget_eq_none_iff hd st).mpr (hfst hd (List.mem_cons_self hd rest))
    have hhd : hd ∉ rest := (List.nodup_cons.mp hnd).1
    rw [parseTagsInto, dinsert_fresh _ _ _ hr0, dinsert_fresh _ _ _ hst0]
    have hstep := ih (r ++ [(hd, (tagEntry hd body).1)]) (st ++ [(hd, (tagEntry hd body).2)])
      (List.nodup_cons.mp hnd).2
      (by
        intro t ht
        simp only [List.map_append, List.mem_append]
        rintro (h | h)
        · exact hfr t (List.mem_cons_of_mem hd ht) h
        · simp at h
          exact hhd (h ▸ ht))
      (by
        intro t ht
        simp only [List.map_append, List.mem_append]
        rintro (h | h)
        · exact hfst t (List.mem_cons_of_mem hd ht) h
        · simp at h
          exact hhd (h ▸ ht))
    constructor
    · rw [hstep.1]
      simp
    · rw [hstep.2]
      simp

/-- A sub-chunk-sized nonempty batch needs exactly one request. -/
theorem ceilDiv_eq_one {n c : Nat} (h1 : 1 ≤ n) (h2 : n ≤ c) : ceilDiv n c = 1 := by
  have hc0 : 0 < c := lt_of_lt_of_le h1 h2
  have he : n + c - 1 = (n - 1) + c := by omega
  rw [ceilDiv, he, Nat.add_div_right _ hc0, Nat.div_eq_of_lt (by omega)]

/-- Splitting off one full chunk accounts for one request. -/
theorem ceilDiv_add {n c : Nat} (hc : 1 ≤ c) (h : c < n) :
    ceilDiv n c = 1 + ceilDiv (n - c) c := by
  have he : n + c - 1 = (n - c + c - 1) + c := by omega
  rw [ceilDiv, ceilDiv, he, Nat.add_div_right _ hc]
  omega

/-- For a nonnegative bound the Python slice `l[:c]` is `take`. -/
theorem pyTake_nonneg {α : Type} (c : Int) (l : List α) (h : 0 ≤ c) :
    pyTake c l = l.take c.toNat := by
  simp [pyTake, h]

/-- For a nonnegative bound the Python slice `l[c:]` is `drop`. -/
theorem pyDrop_nonneg {α : Type} (c : Int) (l : List α) (h : 0 ≤ c) :
    pyDrop c l = l.drop c.toNat := by
  simp [pyDrop, h]

/-- Under a benign device a sub-chunk-sized `_read_tags` invocation performs
one request and returns the parse of that response. -/
theorem readLoop_base (w : World) (hw : BenignWorld w) (s : St) (tags : List String)
    (r : PyDict String (Option String)) (st : PyDict String String)
    (hlen : ¬ ((tags.length : Int) > s.bridge.tagsPerRequest)) (fuel : Nat) :
    ∃ e, w s.clock = .ok e ∧
      readLoop w (fuel + 1) s tags (some (r, st)) =
        (.ok (.pair (parseTagsInto e.body tags r st).1 (parseTagsInto e.body tags r st).2),
          { s with clock := s.clock + 1, calls := s.calls ++ [.readTags tags] }) := by
  obtain ⟨e, he, hnl, htm⟩ := hw s.clock
  refine ⟨e, he, ?_⟩
  simp [readLoop, hlen, httpGet, he, hnl, htm]

/-- Chunking invariant of `_read_tags` under a benign device and a positive
chunk size: processing a fresh, duplicate-free, nonempty batch issues
`⌈n/c⌉` requests over order-preserving sub-batches and extends the two result
dicts by exactly the requested tags, in order. -/
theorem readLoop_chunks (w : World) (hw : BenignWorld w) (b : EcotouchBridge)
    (hc : 1 ≤ b.tagsPerRequest) :
    ∀ (n : Nat) (tags : List String), tags.length ≤ n → 1 ≤ tags.length → tags.Nodup →
    ∀ (s : St) (r : PyDict String (Option String)) (st : PyDict String String),
      s.bridge = b →
      (∀ t ∈ tags, t ∉ r.map Prod.fst) → (∀ t ∈ tags, t ∉ st.map Prod.fst) →
      ∀ fuel, tags.length + 1 ≤ fuel →
      ∃ (r2 : PyDict String (Option String)) (st2 : PyDict String String)
        (chunks : List (List String)),
        readLoop w fuel s tags (some (r, st)) =
          (.ok (.pair r2 st2), { bridge := s.bridge, clock := s.clock + chunks.length, calls := s.calls ++ chunks.map Call.readTags }) ∧
        chunks.length = ceilDiv tags.length b.tagsPerRequest.toNat ∧
        chunks.flatten = tags ∧
        (∀ ch ∈ chunks, (ch.length : Int) ≤ b.tagsPerRequest) ∧
        r2.map Prod.fst = r.map Prod.fst ++ tags ∧
        st2.map Prod.fst = st.map Prod.fst ++ tags := by
  intro n
  induction n with
  | zero =>
    intro tags hlen h1 hnd s r st hb hfr hfst fuel hfuel
    exact ((by omega : False)).elim
  | succ n ih =>
    intro tags hlen h1 hnd s r st hb hfr hfst fuel hfuel
    obtain ⟨fuel, rfl⟩ : ∃ f, fuel = f + 1 := ⟨fuel - 1, by omega⟩
    have hc0 : (0 : Int) ≤ b.tagsPerRequest := by omega
    by_cases hsplit : (tags.length : Int) > b.tagsPerRequest
    · set cN := b.tagsPerRequest.toNat with hcN
      have hcN1 : 1 ≤ cN := by omega
      have hcNlt : cN < tags.length := by omega
      have htake : pyTake s.bridge.tagsPerRequest tags = tags.take cN := by
        rw [hb]; exact pyTake_nonneg _ _ hc0
      have hdrop : pyDrop s.bridge.tagsPerRequest tags = tags.drop cN := by
        rw [hb]; exact pyDrop_nonneg _ _ hc0
      have htlen : (tags.take cN).length = cN := by
        rw [List.length_take]; omega
      have hdlen : (tags.drop cN).length = tags.length - cN := List.length_drop cN tags
      have hnd2 : ((tags.take cN) ++ (tags.drop cN)).Nodup := by
        rw [List.take_append_drop]; exact hnd
      have hdisj := List.nodup_append.mp hnd2
      obtain ⟨r1, st1, chunks1, heq1, hlen1, hjoin1, hbat1, hk1, hk1'⟩ :=
        ih (tags.take cN) (by omega) (by omega) hdisj.1 s r st hb
          (fun t ht => hfr t (List.take_subset cN tags ht))
          (fun t ht => hfst t (List.take_subset cN tags ht))
          fuel (by omega)
      obtain ⟨r2, st2, chunks2, heq2, hlen2, hjoin2, hbat2, hk2, hk2'⟩ :=
        ih (tags.drop cN) (by omega) (by omega) hdisj.2.1
          { bridge := s.bridge, clock := s.clock + chunks1.length, calls := s.calls ++ chunks1.map Call.readTags }
          r1 st1 hb
          (by
            intro t ht
            rw [hk1]
            simp only [List.mem_append]
            rintro (h | h)
            · exact hfr t (List.drop_subset cN tags ht) h
            · exact hdisj.2.2 h ht)
          (by
            intro t ht
            rw [hk1']
            simp only [List.mem_append]
            rintro (h | h)
            · exact hfst t (List.drop_subset cN tags ht) h
            · exact hdisj.2.2 h ht)
          fuel (by omega)
      refine ⟨r2, st2, chunks1 ++ chunks2, ?_, ?_, ?_, ?_, ?_, ?_⟩
      · simp only [readLoop]
        rw [if_pos (show (tags.length : Int) > s.bridge.tagsPerRequest by rw [hb]; exact hsplit)]
        simp only [Option.getD]
        rw [htake, heq1]
        simp only []
        rw [hdrop, heq2]
        simp [List.map_append, List.append_assoc, add_assoc]
      · rw [List.length_append, hlen1, hlen2, htlen, hdlen, ceilDiv_eq_one hcN1 le_rfl,
          ← ceilDiv_add hcN1 hcNlt]
      · rw [List.flatten_append, hjoin1, hjoin2, List.take_append_drop]
      · intro ch hch
        rcases List.mem_append.mp hch with h | h
        · exact hbat1 ch h
        · exact hbat2 ch h
      · rw [hk2, hk1, List.append_assoc, List.take_append_drop]
      · rw [hk2', hk1', List.append_assoc, List.take_append_drop]
    · obtain ⟨e, he, heq⟩ := readLoop_base w hw s tags r st
        (show ¬ ((tags.length : Int) > s.bridge.tagsPerRequest) by rw [hb]; exact hsplit) fuel
      have hpk := parse_keys e.body tags r st hnd hfr hfst
      refine ⟨(parseTagsInto e.body tags r st).1, (parseTagsInto e.body tags r st).2, [tags],
        ?_, ?_, ?_, ?_, ?_, ?_⟩
      · rw [heq]
        rfl
      · show 1 = ceilDiv tags.length b.tagsPerRequest.toNat
        exact (ceilDiv_eq_one h1 (by omega)).symm
      · simp
      · intro ch hch
        simp at hch
        subst hch
        omega
      · exact hpk.1
      · exact hpk.2

/-- Under a benign device a sub-chunk-sized `_read_tags` invocation whose
accumulators were lost to a failed mid-batch re-login performs its request and
then returns `(None, None)` on an empty batch or raises `TypeError`. -/
theorem readLoop_base_none (w : World) (hw : BenignWorld w) (s : St) (tags : List String)
    (hlen : ¬ ((tags.length : Int) > s.bridge.tagsPerRequest)) (fuel : Nat) :
    ∃ e, w s.clock = .ok e ∧
      readLoop w (fuel + 1) s tags none =
        ((if tags.isEmpty then (.ok .noneNone) else (.exn .typeError) : Outcome ReadRet),
          { s with clock := s.clock + 1, calls := s.calls ++ [.readTags tags] }) := by
  obtain ⟨e, he, hnl, htm⟩ := hw s.clock
  refine ⟨e, he, ?_⟩
  by_cases hemp : tags.isEmpty
  · simp [readLoop, hlen, httpGet, he, hnl, htm, hemp]
  · simp [readLoop, hlen, httpGet, he, hnl, htm, hemp]

/-- Under a benign device and a positive chunk size, `_read_tags` never
diverges (fuel `n+1` suffices for `n` tags) and leaves the bridge object
untouched. -/
theorem readLoop_no_diverge (w : World) (hw : BenignWorld w) (b : EcotouchBridge)
    (hc : 1 ≤ b.tagsPerRequest) :
    ∀ (n : Nat) (tags : List String), tags.length ≤ n →
    ∀ (s : St) (acc : Option (PyDict String (Option String) × PyDict String String)),
      s.bridge = b → ∀ fuel, tags.length + 1 ≤ fuel →
      (readLoop w fuel s tags acc).1 ≠ .diverge ∧
      (readLoop w fuel s tags acc).2.bridge = s.bridge := by
  intro n
  induction n with
  | zero =>
    intro tags hlen s acc hb fuel hfuel
    have htags : tags = [] := List.length_eq_zero.mp (by omega)
    subst htags
    obtain ⟨f, rfl⟩ : ∃ f, fuel = f + 1 := ⟨fuel - 1, by omega⟩
    have hnb : ¬ ((([] : List String).length : Int) > s.bridge.tagsPerRequest) := by
      rw [hb]; simp; omega
    rcases acc with _ | ⟨r, st⟩
    · obtain ⟨e, he, heq⟩ := readLoop_base_none w hw s [] hnb f
      rw [heq]
      simp
    · obtain ⟨e, he, heq⟩ := readLoop_base w hw s [] r st hnb f
      rw [heq]
      simp
  | succ n ih =>
    intro tags hlen s acc hb fuel hfuel
    obtain ⟨f, rfl⟩ : ∃ f, fuel = f + 1 := ⟨fuel - 1, by omega⟩
    by_cases hsplit : (tags.length : Int) > b.tagsPerRequest
    · have hsplit2 : (tags.length : Int) > s.bridge.tagsPerRequest := by rw [hb]; exact hsplit
      have hcN1 : 1 ≤ b.tagsPerRequest.toNat := by omega
      have hcNlt : b.tagsPerRequest.toNat < tags.length := by omega
      have htake : pyTake s.bridge.tagsPerRequest tags = tags.take b.tagsPerRequest.toNat := by
        rw [hb]; exact pyTake_nonneg _ _ (by omega)
      have hdrop : pyDrop s.bridge.tagsPerRequest tags = tags.drop b.tagsPerRequest.toNat := by
        rw [hb]; exact pyDrop_nonneg _ _ (by omega)
      have htlen : (tags.take b.tagsPerRequest.toNat).length = b.tagsPerRequest.toNat := by
        rw [List.length_take]; omega
      have hin := ih (tags.take b.tagsPerRequest.toNat) (by omega) s (some (acc.getD ([], []))) hb f (by omega)
      rcases hres : readLoop w f s (tags.take b.tagsPerRequest.toNat) (some (acc.getD ([], []))) with ⟨o, s1⟩
      rw [hres] at hin
      have hs1b : s1.bridge = b := by rw [← hb]; exact hin.2
      simp only [readLoop]
      rw [if_pos hsplit2, htake, hres]
      cases o with
      | diverge => exact absurd rfl hin.1
      | exn e2 => exact ⟨by simp, hin.2⟩
      | ok rr =>
        cases rr with
        | pair r1 st1 =>
          rw [hdrop]
          have := ih (tags.drop b.tagsPerRequest.toNat) (by simp [List.length_drop]; omega) s1
            (some (r1, st1)) hs1b f (by simp [List.length_drop]; omega)
          exact ⟨this.1, by rw [this.2, hs1b, hb]⟩
        | noneNone =>
          rw [hdrop]
          have := ih (tags.drop b.tagsPerRequest.toNat) (by simp [List.length_drop]; omega) s1
            none hs1b f (by simp [List.length_drop]; omega)
          exact ⟨this.1, by rw [this.2, hs1b, hb]⟩
        | onlyNone => exact ⟨by simp, hin.2⟩
    · have hnb : ¬ ((tags.length : Int) > s.bridge.tagsPerRequest) := by rw [hb]; exact hsplit
      rcases acc with _ | ⟨r, st⟩
      · obtain ⟨e, he, heq⟩ := readLoop_base_none w hw s tags hnb f
        rw [heq]
        constructor
        · split <;> simp
        · rfl
      · obtain ⟨e, he, heq⟩ := readLoop_base w hw s tags r st hnb f
        rw [heq]
        simp

/-- With a negative chunk size the chunking loop never terminates: every
amount of fuel is exhausted. -/
theorem readLoop_neg_diverge (w : World) (b : EcotouchBridge) (hcneg : b.tagsPerRequest < 0) :
    ∀ (fuel : Nat) (tags : List String) (s : St)
      (acc : Option (PyDict String (Option String) × PyDict String String)),
      s.bridge = b → (readLoop w fuel s tags acc).1 = .diverge := by
  intro fuel
  induction fuel with
  | zero => intro tags s acc hb; simp [readLoop]
  | succ fuel ih =>
    intro tags s acc hb
    have hsplit : (tags.length : Int) > s.bridge.tagsPerRequest := by
      rw [hb]; omega
    simp only [readLoop]
    rw [if_pos hsplit]
    rcases hres : readLoop w fuel s (pyTake s.bridge.tagsPerRequest tags)
        (some (acc.getD ([], []))) with ⟨o, s1⟩
    have hdiv := ih (pyTake s.bridge.tagsPerRequest tags) s (some (acc.getD ([], []))) hb
    rw [hres] at hdiv
    simp only at hdiv
    subst hdiv
    rfl

/-- With chunk size zero and a nonempty tag list the chunking loop never
terminates under a benign device: `tags[:0]` is empty, `tags[0:]` is the whole
list, so the loop makes no progress. -/
theorem readLoop_zero_diverge (w : World) (hw : BenignWorld w) (b : EcotouchBridge)
    (hc0 : b.tagsPerRequest = 0) :
    ∀ (fuel : Nat) (tags : List String) (s : St)
      (acc : Option (PyDict String (Option String) × PyDict String String)),
      s.bridge = b → 1 ≤ tags.length → (readLoop w fuel s tags acc).1 = .diverge := by
  intro fuel
  induction fuel with
  | zero => intro tags s acc hb h1; simp [readLoop]
  | succ fuel ih =>
    intro tags s acc hb h1
    have hsplit : (tags.length : Int) > s.bridge.tagsPerRequest := by
      rw [hb, hc0]; exact_mod_cast h1
    have htake : pyTake s.bridge.tagsPerRequest tags = [] := by
      rw [hb, hc0]
      simp [pyTake]
    have hdrop : pyDrop s.bridge.tagsPerRequest tags = tags := by
      rw [hb, hc0]
      simp [pyDrop]
    simp only [readLoop]
    rw [if_pos hsplit, htake]
    rcases fuel with _ | f
    · simp [readLoop]
    · obtain ⟨e, he, heq⟩ := readLoop_base w hw s [] (acc.getD ([], [])).1 (acc.getD ([], [])).2
        (by rw [hb, hc0]; simp) f
      rw [show (some (acc.getD ([], []))) = some ((acc.getD ([], [])).1, (acc.getD ([], [])).2) by simp]
      rw [heq]
      simp only [parseTagsInto]
      rw [hdrop]
      exact ih tags _ (some ((acc.getD ([], [])).1, (acc.getD ([], [])).2)) hb h1

/-- C1 (counterexample): the claim promises exactly one login and exactly one
retry, with a session error after a second consecutive needs-login response.
In this concrete run the first chunk response and the retried chunk response
are both needs-login and both logins succeed: the transport performs two login
calls and three chunk attempts, and the call then even succeeds — there is no
once-per-call bound and no surfaced session error. -/
theorem relogin_unbounded_counterexample :
    ((readTagsF wRelogin 9 st0 ["A1"] none none).2.calls.filter isLoginCall).length = 2 ∧
    ((readTagsF wRelogin 9 st0 ["A1"] none none).2.calls.filter isReadTagsCall).length = 3 ∧
    (readTagsF wRelogin 9 st0 ["A1"] none none).1 =
      .ok (.pair [("A1", some "215")] [("A1", "S_OK")]) := by decide

/-- C1 (amended): on a needs-login chunk response the transport logs in with
the stored credentials and retries the same chunk; the cycle repeats while
responses stay needs-login and logins succeed (no once-per-call bound).  When
the re-login itself fails with a status error, the call returns the
session-failure value (`(None, None)` for reads, `None` for writes) after
exactly one login call and no retry of the chunk. -/
theorem relogin_failure_single_login_no_retry (w : World) (s : St) (fuel : Nat)
    (tags vals : List String) (e e2 : HttpExchange) (σ : String)
    (hw : w s.clock = .ok e) (hnl : respStartsWith "#E_NEED_LOGIN" e.body = true)
    (hw2 : w (s.clock + 1) = .ok e2) (hst : e2.status = 200)
    (hp : get_status_response e2.body = some σ) (hok : σ ≠ "S_OK")
    (hlen : (tags.length : Int) ≤ s.bridge.tagsPerRequest) :
    readTagsF w (fuel + 1) s tags none none =
      (.ok .noneNone, { s with clock := s.clock + 2, calls := s.calls ++ [.readTags tags, .loginCall s.bridge.username s.bridge.password] }) ∧
    writeTagsF w (fuel + 1) s tags vals =
      (.ok .wnone, { s with clock := s.clock + 2, calls := s.calls ++ [.writeTags tags vals, .loginCall s.bridge.username s.bridge.password] }) := by
  have hlt : ¬ ((tags.length : Int) > s.bridge.tagsPerRequest) := not_lt.mpr hlen
  by_cases htm : pyStartsWith "E_TOO_MANY_USERS" σ
  · constructor
    · simp [readTagsF, readLoop, hlt, httpGet, hw, hnl, loginF, hw2, hst, hp, hok, htm, PyErr.isStatusException]
    · simp [writeTagsF, httpGet, hw, hnl, loginF, hw2, hst, hp, hok, htm, PyErr.isStatusException]
  · constructor
    · simp [readTagsF, readLoop, hlt, httpGet, hw, hnl, loginF, hw2, hst, hp, hok, htm, PyErr.isStatusException]
    · simp [writeTagsF, httpGet, hw, hnl, loginF, hw2, hst, hp, hok, htm, PyErr.isStatusException]

/-- Witness for the amended C1 theorem at a concrete world: needs-login, then
a login rejected with status `E_USER`. -/
theorem relogin_failure_single_login_no_retry_witness :
    respStartsWith "#E_NEED_LOGIN" ["#E_NEED_LOGIN"] = true ∧
    readTagsF wLoginFail 9 st0 ["A1"] none none =
      (.ok .noneNone, { st0 with clock := 2, calls := [.readTags ["A1"], .loginCall "waterkotte" "waterkotte"] }) :=
  ⟨rfl, (relogin_failure_single_login_no_retry wLoginFail st0 8 ["A1"] ["215"]
    { body := ["#E_NEED_LOGIN"] } { body := ["#E_USER"] } "E_USER" rfl rfl rfl rfl
    (by decide) (by decide) (by decide)).1⟩

/-- C2 (counterexample): the claim promises an error distinguished from a
generic session error (e.g. a `TooManyUsersException`).  On the write path the
too-many-users chunk response produces the bare `None` return — byte-for-byte
the same outcome as the failed-re-login session error — and the caller-facing
`write_values` surfaces the identical `TypeError` in both worlds; no
`TooManyUsersException` is raised by the transport. -/
theorem tooMany_not_distinguished_counterexample :
    (writeTagsF wLoginFail 9 st0 ["A32"] ["215"]).1 = .ok .wnone ∧
    (writeTagsF wTooMany 9 st0 ["A32"] ["215"]).1 = .ok .wnone ∧
    (write_values wLoginFail 9 st0 [(TEMPERATURE_HEATING_SETPOINT, .num (mkRat 215 10))]).1 = .exn .typeError ∧
    (write_values wTooMany 9 st0 [(TEMPERATURE_HEATING_SETPOINT, .num (mkRat 215 10))]).1 = .exn .typeError := by
  decide

/-- C2 (amended): a chunk response with the too-many-users sentinel aborts the
chunk with no retry and no login call — `_write_tags` returns the bare `None`
also used by the failed-re-login path, `_read_tags` returns its own bare
`None` — and the distinguished `TooManyUsersException` is raised only by
`login()` itself when the login response carries the sentinel status. -/
theorem tooMany_aborts_without_retry (w : World) (s : St) (fuel : Nat)
    (tags vals tags2 : List String) (e : HttpExchange)
    (hw : w s.clock = .ok e)
    (hnl : respStartsWith "#E_NEED_LOGIN" e.body = false)
    (htm : respStartsWith "#E_TOO_MANY_USERS" e.body = true) :
    writeTagsF w (fuel + 1) s tags vals =
      (.ok .wnone, { s with clock := s.clock + 1, calls := s.calls ++ [.writeTags tags vals] }) ∧
    ((tags2.length : Int) ≤ s.bridge.tagsPerRequest →
      readTagsF w (fuel + 1) s tags2 none none =
        (.ok .onlyNone, { s with clock := s.clock + 1, calls := s.calls ++ [.readTags tags2] })) ∧
    (∀ u p σ, get_status_response e.body = some σ → σ ≠ "S_OK" →
      pyStartsWith "E_TOO_MANY_USERS" σ = true → e.status = 200 →
      loginF w s u p = (.exn (.tooManyUsers "TOO_MANY_USERS"), { s with bridge := { s.bridge with username := u, password := p }, clock := s.clock + 1, calls := s.calls ++ [.loginCall u p] })) := by
  refine ⟨?_, ?_, ?_⟩
  · simp [writeTagsF, httpGet, hw, hnl, htm]
  · intro hlen
    have hlt : ¬ ((tags2.length : Int) > s.bridge.tagsPerRequest) := not_lt.mpr hlen
    simp [readTagsF, readLoop, hlt, httpGet, hw, hnl, htm]
  · intro u p σ hp hok hpre h200
    simp [loginF, httpGet, hw, h200, hp, hok, hpre]

/-- Witness for the amended C2 theorem: the `wTooMany` world exercises all
three conjuncts at once. -/
theorem tooMany_aborts_without_retry_witness :
    respStartsWith "#E_TOO_MANY_USERS" ["#E_TOO_MANY_USERS"] = true ∧
    writeTagsF wTooMany 9 st0 ["A32"] ["215"] =
      (.ok .wnone, { st0 with clock := 1, calls := [.writeTags ["A32"] ["215"]] }) ∧
    loginF wTooMany st0 "u" "p" =
      (.exn (.tooManyUsers "TOO_MANY_USERS"), { st0 with bridge := { st0.bridge with username := "u", password := "p" }, clock := 1, calls := [.loginCall "u" "p"] }) := by
  have h := tooMany_aborts_without_retry wTooMany st0 8 ["A32"] ["215"] ["A1"]
    { body := ["#E_TOO_MANY_USERS"] } rfl rfl rfl
  exact ⟨rfl, h.1, h.2.2 "u" "p" "E_TOO_MANY_USERS" rfl (by decide) (by decide) rfl⟩

/-- C3 (counterexample): the claim promises that a mismatching echo still
returns a Result carrying the re-decoded echoed value.  Writing `21.5` while
the device echoes raw `216` (decoding to `21.6`) actually returns an *empty*
result map — the entry is only made in the `else` branch of the comparison —
although the call does not raise and the write request was issued. -/
theorem write_echo_mismatch_counterexample :
    decodePlain [some "216"] = .ok (.num (mkRat 216 10)) ∧
    (write_values wEcho216 9 st0 [(TEMPERATURE_HEATING_SETPOINT, .num (mkRat 215 10))]).1 = .ok [] ∧
    (write_values wEcho216 9 st0 [(TEMPERATURE_HEATING_SETPOINT, .num (mkRat 215 10))]).2.calls = [.writeTags ["A32"] ["215"]] :=
  ⟨rfl, by decide, by decide⟩

/-- C3 (amended): after a successful write whose echoed statuses are all
`S_OK`, the operation re-decodes the echoed raw values and compares them with
the requested value; on a mismatch it only logs and returns a result *without
an entry* for the descriptor (no exception); only on a match does the result
carry the (equal) re-decoded echoed value together with the first register's
status. -/
theorem write_echo_result (w : World) (s : St) (fuel : Nat) (td : TagData) (value : DomainVal)
    (tw : PyDict String String) (e : HttpExchange)
    (ev : PyDict String (Option String)) (est : PyDict String String)
    (sv : List (Option String)) (val : DomainVal)
    (hwr : td.writeable = true)
    (henc : td.encode value [] = .ok tw)
    (hw : w s.clock = .ok e)
    (hnl : respStartsWith "#E_NEED_LOGIN" e.body = false)
    (htm : respStartsWith "#E_TOO_MANY_USERS" e.body = false)
    (hparse : parseTagsInto e.body (tw.map Prod.fst) [] [] = (ev, est))
    (hne : 0 < ev.length)
    (hall : est.all (fun q => q.2 == "S_OK") = true)
    (hlook : lookupAll ev td.tags = some sv)
    (hdec : td.decode sv = .ok val) :
    (pyStrEq val value = false →
      write_values w (fuel + 1) s [(td, value)] =
        (.ok [], { s with clock := s.clock + 1, calls := s.calls ++ [.writeTags (tw.map Prod.fst) (tw.map Prod.snd)] })) ∧
    (∀ t0 stat0, td.tags.head? = some t0 → dget? t0 est = some stat0 → pyStrEq val value = true →
      write_values w (fuel + 1) s [(td, value)] =
        (.ok [(td, (val, stat0))], { s with clock := s.clock + 1, calls := s.calls ++ [.writeTags (tw.map Prod.fst) (tw.map Prod.snd)] })) := by
  constructor
  · intro hmm
    simp [write_values, writeValuesGo, hwr, henc, writeTagsF, httpGet, hw, hnl, htm, hparse,
      hne, hall, hlook, hdec, hmm]
  · intro t0 stat0 h0 hst hmm
    simp [write_values, writeValuesGo, hwr, henc, writeTagsF, httpGet, hw, hnl, htm, hparse,
      hne, hall, hlook, hdec, hmm, h0, hst, dinsert]

/-- Witness for the amended C3 theorem: the mismatch branch at the concrete
`wEcho216` world. -/
theorem write_echo_result_witness :
    pyStrEq (.num (mkRat 216 10)) (.num (mkRat 215 10)) = false ∧
    write_values wEcho216 9 st0 [(TEMPERATURE_HEATING_SETPOINT, .num (mkRat 215 10))] =
      (.ok [], { st0 with clock := 1, calls := [.writeTags ["A32"] ["215"]] }) :=
  ⟨by decide, (write_echo_result wEcho216 st0 8 TEMPERATURE_HEATING_SETPOINT
    (.num (mkRat 215 10)) [("A32", "215")] { body := ["#A32\tS_OK", "1\t216"] }
    [("A32", some "216")] [("A32", "S_OK")] [some "216"] (.num (mkRat 216 10))
    rfl rfl rfl rfl rfl (by decide) (by decide) (by decide) (by decide) rfl).1 (by decide)⟩

/-- C4 (counterexample): the claim quantifies over every list of N distinct
register codes, but for N = 0 the code still issues one chunk request (with
`n=0`) while `⌈0/10⌉ = 0`. -/
theorem read_empty_issues_one_call_counterexample :
    (readTagsF wNop 5 st0 [] none none).2.calls.length = 1 ∧ ceilDiv 0 10 = 0 := by decide

/-- C4 (amended): for every *nonempty* list of N distinct register codes and
chunk size c ≥ 1, a read under a benign device issues exactly `⌈N/c⌉` chunk
requests whose batches preserve order and concatenate back to the input, and
the merged result dicts map exactly the N requested codes, in original
order.  (An empty list still issues one request.) -/
theorem read_chunking (w : World) (hw : BenignWorld w) (s : St) (tags : List String)
    (hc : 1 ≤ s.bridge.tagsPerRequest) (hne : 1 ≤ tags.length) (hnd : tags.Nodup)
    (fuel : Nat) (hfuel : tags.length + 1 ≤ fuel) :
    ∃ (r : PyDict String (Option String)) (st : PyDict String String)
      (chunks : List (List String)),
      readTagsF w fuel s tags none none =
        (.ok (.pair r st), { bridge := s.bridge, clock := s.clock + chunks.length, calls := s.calls ++ chunks.map Call.readTags }) ∧
      chunks.length = ceilDiv tags.length s.bridge.tagsPerRequest.toNat ∧
      chunks.flatten = tags ∧
      (∀ ch ∈ chunks, (ch.length : Int) ≤ s.bridge.tagsPerRequest) ∧
      r.map Prod.fst = tags ∧ st.map Prod.fst = tags := by
  obtain ⟨r, st, chunks, heq, hlen, hjoin, hbat, hk, hk'⟩ :=
    readLoop_chunks w hw s.bridge hc tags.length tags le_rfl hne hnd s [] [] rfl
      (by simp) (by simp) fuel hfuel
  exact ⟨r, st, chunks, heq, hlen, hjoin, hbat, by simpa using hk, by simpa using hk'⟩

/-- Witness for the amended C4 theorem: three tags with chunk size 2 give
`⌈3/2⌉ = 2` requests. -/
theorem read_chunking_witness :
    BenignWorld wNop ∧
    (∃ (r : PyDict String (Option String)) (st : PyDict String String)
      (chunks : List (List String)),
      readTagsF wNop 9 st2 ["A1", "A2", "A3"] none none =
        (.ok (.pair r st), { bridge := st2.bridge, clock := st2.clock + chunks.length, calls := st2.calls ++ chunks.map Call.readTags }) ∧
      chunks.length = ceilDiv 3 st2.bridge.tagsPerRequest.toNat ∧
      chunks.flatten = ["A1", "A2", "A3"] ∧
      (∀ ch ∈ chunks, (ch.length : Int) ≤ st2.bridge.tagsPerRequest) ∧
      r.map Prod.fst = ["A1", "A2", "A3"] ∧ st.map Prod.fst = ["A1", "A2", "A3"]) :=
  ⟨fun k => ⟨{ body := ["#NOTHING"] }, rfl, rfl, rfl⟩,
    read_chunking wNop (fun k => ⟨{ body := ["#NOTHING"] }, rfl, rfl, rfl⟩) st2
      ["A1", "A2", "A3"] (by decide) (by decide) (by decide) 9 (by decide)⟩

/-- C5: a requested register code with no matching block in the response is
recorded with status `E_NOTFOUND` and absent value, a code matched only by the
inactive-tag sentinel gets `E_INACTIVE` and absent value, a matched block
contributes its status and value — and none of these aborts the call: in the
concrete three-register read with the `A2` block missing the transport result
has exactly three entries and the other two descriptors decode normally. -/
theorem per_register_miss_isolation (body : List String) (tags : List String)
    (r : PyDict String (Option String)) (st : PyDict String String) (tag : String)
    (htag : tag ∈ tags) :
    (findBlock tag body = none → hasInactiveLine tag body = false →
      dget? tag (parseTagsInto body tags r st).2 = some "E_NOTFOUND" ∧
      dget? tag (parseTagsInto body tags r st).1 = some none) ∧
    (findBlock tag body = none → hasInactiveLine tag body = true →
      dget? tag (parseTagsInto body tags r st).2 = some "E_INACTIVE" ∧
      dget? tag (parseTagsInto body tags r st).1 = some none) ∧
    (∀ σ v, findBlock tag body = some (σ, v) →
      dget? tag (parseTagsInto body tags r st).2 = some σ ∧
      dget? tag (parseTagsInto body tags r st).1 = some (some v)) ∧
    ((readTagsF wMissingA2 5 st0 ["A1", "A2", "A3"] none none).1 =
      .ok (.pair [("A1", some "215"), ("A2", none), ("A3", some "30")]
                 [("A1", "S_OK"), ("A2", "E_NOTFOUND"), ("A3", "S_OK")]) ∧
     (read_values wMissingA2 5 st0 [TEMPERATURE_OUTSIDE, TEMPERATURE_OUTSIDE_1H, TEMPERATURE_OUTSIDE_24H]).1 =
      .ok [(TEMPERATURE_OUTSIDE, (.num (mkRat 215 10), "S_OK")),
           (TEMPERATURE_OUTSIDE_24H, (.num (mkRat 30 10), "S_OK"))]) := by
  have hg := parse_get body tags tag htag r st
  refine ⟨?_, ?_, ?_, by decide, by decide⟩
  · intro h1 h2
    rw [hg.1, hg.2]
    simp [tagEntry, h1, h2]
  · intro h1 h2
    rw [hg.1, hg.2]
    simp [tagEntry, h1, h2]
  · intro σ v h1
    rw [hg.1, hg.2]
    simp [tagEntry, h1]

/-- Witness for the C5 theorem: the missing `A2` register in the concrete
three-register response really is classified `E_NOTFOUND`. -/
theorem per_register_miss_isolation_witness :
    "A2" ∈ ["A1", "A2", "A3"] ∧
    findBlock "A2" ["#A1\tS_OK", "1\t215", "#A3\tS_OK", "1\t30"] = none ∧
    dget? "A2" (parseTagsInto ["#A1\tS_OK", "1\t215", "#A3\tS_OK", "1\t30"] ["A1", "A2", "A3"] [] []).2 = some "E_NOTFOUND" :=
  ⟨by decide, by decide,
    ((per_register_miss_isolation ["#A1\tS_OK", "1\t215", "#A3\tS_OK", "1\t30"]
      ["A1", "A2", "A3"] [] [] "A2" (by decide)).1 (by decide) (by decide)).1⟩

/-- C6: writing to a descriptor with `writeable = false` raises
`InvalidValueException` immediately, before any encoding or network I/O — the
returned state is the input state, so zero HTTP calls were issued. -/
theorem write_values_readonly_rejected (w : World) (fuel : Nat) (s : St)
    (td : TagData) (v : DomainVal) (rest : List (TagData × DomainVal))
    (h : td.writeable = false) :
    write_values w fuel s ((td, v) :: rest) =
      (.exn (.invalidValue "tried to write to an readonly field"), s) := by
  simp [write_values, writeValuesGo, h]

/-- Witness for the C6 theorem at the read-only catalog descriptor
`TEMPERATURE_FLOW`. -/
theorem write_values_readonly_rejected_witness :
    TEMPERATURE_FLOW.writeable = false ∧
    write_values wNop 5 st0 [(TEMPERATURE_FLOW, .num (mkRat 215 10))] =
      (.exn (.invalidValue "tried to write to an readonly field"), st0) :=
  ⟨rfl, write_values_readonly_rejected wNop 5 st0 TEMPERATURE_FLOW (.num (mkRat 215 10)) [] rfl⟩

/-- C7 (counterexample): the claim promises the cookie is cleared even when
the logout HTTP call fails; with a transport-level failure the exception
propagates before the clearing statement and the cookie survives. -/
theorem logout_netErr_keeps_cookie_counterexample :
    (logoutF wDown sCookie).1 = .exn .netError ∧
    (logoutF wDown sCookie).2.bridge.auth_cookies = some 5 := by decide

/-- C7 (amended): `logout()` clears the auth cookie after every *completed*
HTTP exchange, regardless of status code or body; a transport-level error
propagates as an exception and leaves the cookie unchanged. -/
theorem logout_clears_cookie_on_completed_call (w : World) (s : St) :
    (∀ e, w s.clock = .ok e →
      logoutF w s = (.ok (), { bridge := { s.bridge with auth_cookies := none },
                               clock := s.clock + 1, calls := s.calls ++ [.logoutCall] })) ∧
    (w s.clock = .netErr →
      logoutF w s = (.exn .netError, { s with clock := s.clock + 1,
                                              calls := s.calls ++ [.logoutCall] })) := by
  constructor
  · intro e he
    simp [logoutF, httpGet, he]
  · intro he
    simp [logoutF, httpGet, he]

/-- Witness for the amended C7 theorem: a completed logout exchange clears the
cookie. -/
theorem logout_clears_cookie_on_completed_call_witness :
    wLoginOk sCookie.clock = .ok { body := ["#S_OK", "IDALToken=x"], cookie := 7 } ∧
    logoutF wLoginOk sCookie = (.ok (), { bridge := { sCookie.bridge with auth_cookies := none },
                                          clock := 1, calls := [.logoutCall] }) :=
  ⟨rfl, (logout_clears_cookie_on_completed_call wLoginOk sCookie).1 _ rfl⟩

/-- C8: a decode domain error is scoped to the single descriptor being
decoded: any descriptor of the batch whose register lookups and decode
succeed keeps an entry in the returned result map, whatever happens to its
siblings; concretely, with `I30` carrying the undecodable state raw `5`, the
sibling descriptors `A1` and `A4` still decode into the result. -/
theorem decode_error_scoped_to_descriptor (L : PyDict String (List String))
    (ev : PyDict String (Option String)) (est : PyDict String String)
    (tds : List TagData) (init : PyDict TagData (DomainVal × String)) (td : TagData)
    (htd : td ∈ tds) (tv : List (Option String)) (ts : List String) (stat0 : String)
    (v : DomainVal)
    (hv : lookupAll ev td.tags = some tv) (hs : lookupAll est td.tags = some ts)
    (h0 : ts.head? = some stat0) (hd : td.decode tv = .ok v) :
    dget? td (tds.foldl (readValuesStep L ev est) init) ≠ none ∧
    (read_values wBadState 5 st0 [TEMPERATURE_OUTSIDE, ENABLE_HEATING, TEMPERATURE_SOURCE_ENTRY]).1 =
      .ok [(TEMPERATURE_OUTSIDE, (.num (mkRat 215 10), "S_OK")),
           (TEMPERATURE_SOURCE_ENTRY, (.num (mkRat (-30) 10), "S_OK"))] := by
  refine ⟨?_, by decide⟩
  induction tds generalizing init with
  | nil => cases htd
  | cons hd rest ih =>
    by_cases he : td = hd
    · subst he
      exact fold_preserves_presence L ev est td rest _
        (step_inserts_self L ev est init td tv ts stat0 v hv hs h0 hd)
    · rcases List.mem_cons.mp htd with h | h
      · exact absurd h he
      · exact ih _ h

/-- Witness for the C8 theorem: `TEMPERATURE_OUTSIDE` keeps its entry in a
two-descriptor fold. -/
theorem decode_error_scoped_to_descriptor_witness :
    TEMPERATURE_OUTSIDE ∈ [TEMPERATURE_OUTSIDE, ENABLE_HEATING] ∧
    dget? TEMPERATURE_OUTSIDE
      ([TEMPERATURE_OUTSIDE, ENABLE_HEATING].foldl
        (readValuesStep [] [("A1", some "215"), ("I30", some "5")] [("A1", "S_OK"), ("I30", "S_OK")]) []) ≠ none :=
  ⟨by decide,
    (decode_error_scoped_to_descriptor [] [("A1", some "215"), ("I30", some "5")]
      [("A1", "S_OK"), ("I30", "S_OK")] [TEMPERATURE_OUTSIDE, ENABLE_HEATING] []
      TEMPERATURE_OUTSIDE (by decide) [some "215"] ["S_OK"] "S_OK" (.num (mkRat 215 10))
      (by decide) (by decide) (by decide) rfl).1⟩

/-- C9: the constructor clamps the chunk size only from above
(`min(tagsPerRequest, 75)`), accepting 0 and negative values unchanged; under
a benign device the chunk-splitting recursion of `_read_tags` terminates for
every finite tag list when `tagsPerRequest ≥ 1`, and with `tagsPerRequest ≤ 0`
a read of more tags than `tagsPerRequest` never terminates. -/
theorem chunk_split_termination (T : PyDict String (PyDict String (List String)))
    (host lang : String) (input : Int) (hin : input ≤ 75)
    (w : World) (hw : BenignWorld w) (s : St) :
    (mkBridge T host input lang).tagsPerRequest = input ∧
    (1 ≤ s.bridge.tagsPerRequest → ∀ tags : List String, ReadTerminates w s tags) ∧
    (s.bridge.tagsPerRequest ≤ 0 → ∀ tags : List String,
      s.bridge.tagsPerRequest < (tags.length : Int) → ¬ ReadTerminates w s tags) := by
  refine ⟨min_eq_left hin, ?_, ?_⟩
  · intro hc tags
    refine ⟨tags.length + 1, ?_⟩
    exact (readLoop_no_diverge w hw s.bridge hc tags.length tags le_rfl s
      (some ([], [])) rfl _ le_rfl).1
  · intro hc tags hlen hterm
    obtain ⟨fuel, hdiv⟩ := hterm
    rcases lt_or_eq_of_le hc with hneg | h0
    · exact hdiv (readLoop_neg_diverge w s.bridge hneg fuel tags s (some ([], [])) rfl)
    · have h1 : 1 ≤ tags.length := by omega
      exact hdiv (readLoop_zero_diverge w hw s.bridge h0 fuel tags s (some ([], [])) rfl h1)

/-- Witness for the C9 theorem: a chunk size of `-5` survives the constructor
unchanged, and with chunk size 0 a one-tag read never terminates. -/
theorem chunk_split_termination_witness :
    (mkBridge [] "host" (-5) "en").tagsPerRequest = -5 ∧
    sZero.bridge.tagsPerRequest = 0 ∧
    ¬ ReadTerminates wNop sZero ["T1"] :=
  ⟨(chunk_split_termination [] "host" "en" (-5) (by decide) wNop
      (fun k => ⟨{ body := ["#NOTHING"] }, rfl, rfl, rfl⟩) sZero).1,
   by decide,
   (chunk_split_termination [] "host" "en" (-5) (by decide) wNop
      (fun k => ⟨{ body := ["#NOTHING"] }, rfl, rfl, rfl⟩) sZero).2.2 (by decide) ["T1"] (by decide)⟩

/-- C10: `login` stores the supplied username and password on the bridge
before issuing the HTTP request, so every login — including one that fails
with a transport error, a non-200 status, an unparsable body or a non-`S_OK`
status — overwrites the credentials that transparent re-login will reuse; the
auth cookie, in contrast, changes only on a successful `S_OK` response, where
it becomes the response's cookie. -/
theorem login_stores_credentials_before_call (w : World) (s : St) (u p : String) :
    (loginF w s u p).2.bridge.username = u ∧
    (loginF w s u p).2.bridge.password = p ∧
    ((loginF w s u p).1 ≠ .ok () →
      (loginF w s u p).2.bridge.auth_cookies = s.bridge.auth_cookies) ∧
    (∀ e, w s.clock = .ok e → e.status = 200 → get_status_response e.body = some "S_OK" →
      loginF w s u p = (.ok (), { bridge := { s.bridge with username := u, password := p, auth_cookies := some e.cookie }, clock := s.clock + 1, calls := s.calls ++ [.loginCall u p] })) := by
  cases hw : w s.clock with
  | netErr =>
    refine ⟨?_, ?_, ?_, ?_⟩ <;> simp [loginF, httpGet, hw]
  | ok e =>
    by_cases h200 : e.status = 200
    · cases hp : get_status_response e.body with
      | none =>
        refine ⟨?_, ?_, ?_, ?_⟩ <;> simp [loginF, httpGet, hw, h200, hp]
      | some parsed =>
        by_cases hok : parsed = "S_OK"
        · refine ⟨?_, ?_, ?_, ?_⟩ <;> simp [loginF, httpGet, hw, h200, hp, hok]
        · by_cases htm : pyStartsWith "E_TOO_MANY_USERS" parsed
          · refine ⟨?_, ?_, ?_, ?_⟩ <;> simp [loginF, httpGet, hw, h200, hp, hok, htm]
          · refine ⟨?_, ?_, ?_, ?_⟩ <;> simp [loginF, httpGet, hw, h200, hp, hok, htm]
    · refine ⟨?_, ?_, ?_, ?_⟩ <;> simp [loginF, httpGet, hw, h200]

/-- Witness for the C10 theorem: a successful login stores new credentials and
the response cookie. -/
theorem login_stores_credentials_before_call_witness :
    wLoginOk st0.clock = .ok { body := ["#S_OK", "IDALToken=x"], cookie := 7 } ∧
    (loginF wLoginOk st0 "admin" "pw").2.bridge.username = "admin" ∧
    loginF wLoginOk st0 "admin" "pw" =
      (.ok (), { bridge := { st0.bridge with username := "admin", password := "pw", auth_cookies := some 7 }, clock := 1, calls := [.loginCall "admin" "pw"] }) := by
  refine ⟨rfl, (login_stores_credentials_before_call wLoginOk st0 "admin" "pw").1, ?_⟩
  exact (login_stores_credentials_before_call wLoginOk st0 "admin" "pw").2.2.2 _ rfl rfl (by decide)

end Waterkotte
